import Mathlib

/-!
# Verification of the "This Mind Does Not Exist" debate engine

A shallow embedding, in Lean 4, of the parts of the TypeScript source that the
specification talks about:

* the debate orchestrator (`DebateOrchestrator.run`, `shouldTerminate`,
  `autoScore` from `packages/core/src/debate/orchestrator.ts`),
* the streaming inference client's retry wrapper
  (`OllamaClient.withRetry` / `OllamaClient.chat` from
  `packages/core/src/ollama/client.ts`),
* the RAG retriever's `search` (from `packages/core/src/rag/retriever.ts`,
  the implemented version),
* the SQLite trace store (`TraceStore.saveTrace`, `getTrace`, `listTraces`,
  `rateTrace`, `getFineTuneTraces`, `rowToTrace` from
  `packages/core/src/storage/trace-store.ts`) together with the rating route
  of the Fastify server (`packages/core/src/server/index.ts`).

External effects (model chunks, clock readings, ChromaDB query results, SQLite
rows, generated UUIDs) are supplied through explicit environment records, and
each TypeScript function becomes a pure Lean function of its inputs and that
environment.  JavaScript strings are modelled as Lean `String`s (sequences of
Unicode scalar values); JavaScript numbers that carry scores or similarities
are modelled as `ℚ` so that the comparisons the code performs are exact.
-/

namespace TMDE

/-- Test whether `pat` is an initial segment of `l`. -/
def startsWithChars (pat l : List Char) : Bool :=
  match pat, l with
  | [], _ => true
  | _ :: _, [] => false
  | p :: ps, c :: cs => p == c && startsWithChars ps cs

/-- Test whether `pat` occurs contiguously somewhere in `l`. -/
def occursIn (pat l : List Char) : Bool :=
  match l with
  | [] => pat.isEmpty
  | _ :: cs => startsWithChars pat l || occursIn pat cs

/-- JavaScript's `s.includes(pat)`: `pat` occurs contiguously inside `s`. -/
def containsStr (s pat : String) : Bool :=
  occursIn pat.data s.data

/-- The literal readiness sentinel checked by `shouldTerminate`
(`'Ready for Synthesis ✅'` in the source). -/
def readySentinel : String := "Ready for Synthesis ✅"

/-- The critical-severity marker checked by `shouldTerminate`
(`'🔴'` in the source). -/
def criticalMarker : String := "🔴"

/-- The fields of `DebateConfig` that the orchestrator's control flow and
trace assembly read.  The per-role temperatures are forwarded verbatim to the
inference client and never influence control flow or the trace, so they are
omitted. -/
structure DebateConfig where
  minRounds : Nat
  maxRounds : Nat
  ragTopK : Nat
  proposerModel : String
  skepticModel : String
  synthesizerModel : String
deriving DecidableEq

/-- Model of `TemplateMatch` from `packages/core/src/rag/types.ts`. -/
structure TemplateMatch where
  id : String
  name : String
  score : ℚ
  description : String
  content : String
deriving DecidableEq

/-- Model of `DebateRound` from `packages/core/src/debate/types.ts`. -/
structure DebateRound where
  round : Nat
  proposerResponse : String
  skepticResponse : String
  proposerDurationMs : Nat
  skepticDurationMs : Nat
deriving DecidableEq

/-- The `models` block of a `DebateTrace`. -/
structure DebateModels where
  proposer : String
  skeptic : String
  synthesizer : String
  embedding : String
deriving DecidableEq

/-- The `timing` block of a `DebateTrace`. -/
structure DebateTiming where
  totalMs : Nat
  ragMs : Nat
  roundsMs : List Nat
  synthesisMs : Nat
deriving DecidableEq

/-- Model of `DebateTrace` from `packages/core/src/debate/types.ts`.  Numeric score
fields are nullable in the source (`number | null`), hence `Option ℚ`. -/
structure DebateTrace where
  id : String
  createdAt : String
  query : String
  templatesUsed : List String
  rounds : List DebateRound
  finalAnswer : String
  totalRounds : Nat
  earlyStopped : Bool
  qualityScore : Option ℚ
  userRating : Option ℚ
  autoScore : Option ℚ
  models : DebateModels
  timing : DebateTiming
deriving DecidableEq

/-- Model of `DebateEvent` from `packages/core/src/debate/types.ts`, with the
constructor names the orchestrator actually yields. -/
inductive DebateEvent where
  | rag_start : DebateEvent
  | rag_complete (templates : List TemplateMatch) : DebateEvent
  | round_start (round : Nat) : DebateEvent
  | proposer_start (round : Nat) : DebateEvent
  | proposer_chunk (round : Nat) (content : String) : DebateEvent
  | proposer_complete (round : Nat) (content : String) (durationMs : Nat) : DebateEvent
  | skeptic_start (round : Nat) : DebateEvent
  | skeptic_chunk (round : Nat) (content : String) : DebateEvent
  | skeptic_complete (round : Nat) (content : String) (durationMs : Nat) : DebateEvent
  | early_stop (round : Nat) : DebateEvent
  | synthesis_start : DebateEvent
  | synthesis_chunk (content : String) : DebateEvent
  | synthesis_complete (content : String) (durationMs : Nat) : DebateEvent
  | complete (trace : DebateTrace) : DebateEvent
  | error (message : String) : DebateEvent
deriving DecidableEq

/-- Model of `DebateOrchestrator.shouldTerminate` (orchestrator source, lines 220-234):

```ts
private shouldTerminate(critique: string, roundNum: number): boolean {
  if (critique.includes('Ready for Synthesis ✅')) return true;
  if (roundNum >= this.config.maxRounds) return true;
  if (roundNum >= this.config.minRounds) {
    if (!critique.includes('🔴')) return true;
  }
  return false;
}
``` -/
def shouldTerminate (cfg : DebateConfig) (critique : String) (roundNum : Nat) : Bool :=
  if containsStr critique readySentinel then true
  else if cfg.maxRounds ≤ roundNum then true
  else if cfg.minRounds ≤ roundNum && !(containsStr critique criticalMarker) then true
  else false

/-! ## Auto-scoring (`DebateOrchestrator.autoScore`, orchestrator lines 239-271)

The judge reply is matched against the JavaScript regular expression
`/\{[\s\S]*"score"\s*:\s*(\d+)[\s\S]*\}/`.  Its backtracking semantics on a
text `t`: the match starts at the first `{` of `t` after which a
`"score" \s* : \s* digits` group followed (anywhere later) by a `}` occurs;
the greedy `[\s\S]*` makes the capture come from the *last* such group after
that brace.  `scoreCapture` below computes exactly that captured number. -/

/-- The opening brace character (written via its code point to keep string
literals brace-free). -/
def braceOpen : Char := Char.ofNat 123

/-- The closing brace character. -/
def braceClose : Char := Char.ofNat 125

/-- JavaScript `\s` (the whitespace class used by the score regex). -/
def isJsWhitespace (c : Char) : Bool :=
  c == ' ' || c == '\t' || c == '\n' || c == '\r' ||
  c == Char.ofNat 0x0b || c == Char.ofNat 0x0c ||
  c == Char.ofNat 0xa0 || c == Char.ofNat 0x1680 ||
  (Char.ofNat 0x2000 ≤ c && c ≤ Char.ofNat 0x200a) ||
  c == Char.ofNat 0x2028 || c == Char.ofNat 0x2029 ||
  c == Char.ofNat 0x202f || c == Char.ofNat 0x205f ||
  c == Char.ofNat 0x3000 || c == Char.ofNat 0xfeff

/-- Numeric value of a digit run (the effect of `parseInt(match[1], 10)` on
the captured `\d+`). -/
def digitsToNat (ds : List Char) : Nat :=
  ds.foldl (fun n c => n * 10 + (c.toNat - '0'.toNat)) 0

/-- Try to match `"score" \s* : \s* (\d+) [\s\S]* \}` at the head of `l`,
returning the captured number. -/
def parseScoreAt (l : List Char) : Option Nat :=
  if startsWithChars "\"score\"".data l then
    let rest := (l.drop 7).dropWhile isJsWhitespace
    match rest with
    | c :: rest' =>
      if c == ':' then
        let rest'' := rest'.dropWhile isJsWhitespace
        let ds := rest''.takeWhile Char.isDigit
        let after := rest''.dropWhile Char.isDigit
        if !ds.isEmpty && after.contains braceClose then
          some (digitsToNat ds)
        else none
      else none
    | [] => none
  else none

/-- The capture of the *last* successful `"score"...` group in `l`
(the greedy `[\s\S]*` prefers the longest gap, i.e. the latest group). -/
def lastScoreGroup (l : List Char) : Option Nat :=
  match l with
  | [] => none
  | _ :: cs =>
    match lastScoreGroup cs with
    | some v => some v
    | none => parseScoreAt l

/-- The value captured by `scoreText.match(/\{[\s\S]*"score"\s*:\s*(\d+)[\s\S]*\}/)`:
scan for the first `{` after which some score group succeeds, then take the
last such group. -/
def scoreCapture (l : List Char) : Option Nat :=
  match l with
  | [] => none
  | c :: cs =>
    if c == braceOpen then
      match lastScoreGroup cs with
      | some v => some v
      | none => scoreCapture cs
    else scoreCapture cs

/-- Model of `DebateOrchestrator.autoScore` as a function of the outcome of the judging
call (`.error` when the streaming call throws, `.ok scoreText` with the
accumulated reply otherwise):

```ts
const match = scoreText.match(/\{[\s\S]*"score"\s*:\s*(\d+)[\s\S]*\}/);
if (match) return Math.min(10, Math.max(1, parseInt(match[1], 10)));
if (scoreText.includes('8') || scoreText.includes('9') || scoreText.includes('10')) return 8;
if (scoreText.includes('7')) return 7;
if (scoreText.includes('6')) return 6;
return 5;
// catch: return 5
``` -/
def autoScore (outcome : Except Unit String) : Nat :=
  match outcome with
  | .error _ => 5
  | .ok scoreText =>
    match scoreCapture scoreText.data with
    | some n => min 10 (max 1 n)
    | none =>
      if containsStr scoreText "8" || containsStr scoreText "9" ||
          containsStr scoreText "10" then 8
      else if containsStr scoreText "7" then 7
      else if containsStr scoreText "6" then 6
      else 5

/-! ## The orchestrator's `run` loop (orchestrator lines 50-214)

The orchestrator is an async generator; every await point reads from an
external collaborator.  `DebateEnv` supplies those reads: the retrieved
templates, the streamed chunks of each role per round, the judge outcome, and
the wall-clock durations the source computes from `Date.now()` differences.
`run` then produces the exact event sequence the generator yields on the
non-throwing path, together with the `DebateTrace` it assembles, saves and
emits in the final `complete` event. -/

structure DebateEnv where
  templates : List TemplateMatch
  proposerChunks : Nat → List String
  skepticChunks : Nat → List String
  synthesisChunks : List String
  judge : Except Unit String
  proposerDurationMs : Nat → Nat
  skepticDurationMs : Nat → Nat
  ragDurationMs : Nat
  synthesisDurationMs : Nat
  totalDurationMs : Nat
  traceId : String
  createdAt : String

/-- The events yielded while executing the round-`round` loop body, before the
early-termination check. -/
def roundBlock (env : DebateEnv) (round : Nat) : List DebateEvent :=
  let pChunks := env.proposerChunks round
  let sChunks := env.skepticChunks round
  DebateEvent.round_start round ::
  DebateEvent.proposer_start round ::
  (pChunks.map (DebateEvent.proposer_chunk round) ++
    (DebateEvent.proposer_complete round (String.join pChunks)
        (env.proposerDurationMs round) ::
      DebateEvent.skeptic_start round ::
      (sChunks.map (DebateEvent.skeptic_chunk round) ++
        [DebateEvent.skeptic_complete round (String.join sChunks)
          (env.skepticDurationMs round)])))

/-- The `DebateRound` record pushed onto `rounds` for round `round`. -/
def roundRecord (env : DebateEnv) (round : Nat) : DebateRound :=
  { round := round
    proposerResponse := String.join (env.proposerChunks round)
    skepticResponse := String.join (env.skepticChunks round)
    proposerDurationMs := env.proposerDurationMs round
    skepticDurationMs := env.skepticDurationMs round }

/-- The debate loop `for (let round = 1; round <= maxRounds; round++) ...`
starting at `round`, with structural fuel (`run` passes `maxRounds`, which
bounds the remaining iterations).  Returns the yielded events, the rounds
recorded from `round` on, and the final value of `earlyStopped`. -/
def runRoundsFrom (cfg : DebateConfig) (env : DebateEnv) :
    Nat → Nat → List DebateEvent × List DebateRound × Bool
  | _, 0 => ([], [], false)
  | round, fuel + 1 =>
    if cfg.maxRounds < round then ([], [], false)
    else
      let rd := roundRecord env round
      if shouldTerminate cfg rd.skepticResponse round then
        (roundBlock env round ++ [DebateEvent.early_stop round], [rd], true)
      else
        let rest := runRoundsFrom cfg env (round + 1) fuel
        (roundBlock env round ++ rest.1, rd :: rest.2.1, rest.2.2)

/-- Model of `DebateOrchestrator.run` on the non-throwing path: the full event sequence
and the assembled trace (the argument of `traceStore.saveTrace` and of the
terminal `complete` event). -/
def run (cfg : DebateConfig) (env : DebateEnv) (query : String) :
    List DebateEvent × DebateTrace :=
  let loop := runRoundsFrom cfg env 1 cfg.maxRounds
  let rounds := loop.2.1
  let finalAnswer := String.join env.synthesisChunks
  let trace : DebateTrace :=
    { id := env.traceId
      createdAt := env.createdAt
      query := query
      templatesUsed := env.templates.map (fun t => t.id)
      rounds := rounds
      finalAnswer := finalAnswer
      totalRounds := rounds.length
      earlyStopped := loop.2.2
      qualityScore := none
      userRating := none
      autoScore := some (autoScore env.judge)
      models :=
        { proposer := cfg.proposerModel
          skeptic := cfg.skepticModel
          synthesizer := cfg.synthesizerModel
          embedding := "nomic-embed-text" }
      timing :=
        { totalMs := env.totalDurationMs
          ragMs := env.ragDurationMs
          roundsMs := rounds.map (fun r => r.proposerDurationMs + r.skepticDurationMs)
          synthesisMs := env.synthesisDurationMs } }
  (DebateEvent.rag_start :: DebateEvent.rag_complete env.templates ::
    (loop.1 ++
      (DebateEvent.synthesis_start ::
        (env.synthesisChunks.map DebateEvent.synthesis_chunk ++
          [DebateEvent.synthesis_complete finalAnswer env.synthesisDurationMs,
           DebateEvent.complete trace]))),
   trace)

/-! ## The inference client's retry wrapper (`OllamaClient`, client lines 332-345 and 415-472)

`fetch` either *rejects* — with an abort error when the per-call timeout fires,
or a network error when the backend is unreachable — or *resolves* with a
`Response` whose `ok` flag is false for HTTP-level failures such as a missing
model.  `withRetry` wraps only the `fetch` call; the response body is read
after it returns.  The outcome of the `i`-th fetch attempt is supplied by an
oracle `Nat → Except FetchFailure α`. -/

/-- A rejected `fetch`: the abort caused by the timeout, or a network error. -/
inductive FetchFailure where
  | aborted : FetchFailure
  | networkError : FetchFailure
deriving DecidableEq

/-- One newline-delimited JSON record of the streamed chat body:
unparseable, or parsed with an optional `message.content` and a `done` flag. -/
inductive ChatLine where
  | malformed : ChatLine
  | parsed (content : Option String) (done : Bool) : ChatLine
deriving DecidableEq

/-- A resolved `fetch`: the `ok` flag and the body's stream of records. -/
structure FetchResponse where
  ok : Bool
  lines : List ChatLine
deriving DecidableEq

/-- What `OllamaClient.chat` can throw before yielding: the rethrown last
fetch failure, or the `Ollama chat failed` error on a non-ok status. -/
inductive ChatError where
  | fetchFailed (last : Option FetchFailure) : ChatError
  | httpError : ChatError
deriving DecidableEq

/-- The loop of `withRetry` (client lines 332-345), started at attempt `i`
with `remaining` attempts left and `last` the last caught error.  Returns the
result (the rethrown `last` if every attempt failed) paired with the total
number of `fn()` calls made.  The exponential back-off sleep only consumes
time and is not modelled. -/
def withRetryGo (outcome : Nat → Except FetchFailure α) :
    Nat → Nat → Option FetchFailure → Except (Option FetchFailure) α × Nat
  | i, 0, last => (.error last, i)
  | i, remaining + 1, _ =>
    match outcome i with
    | .ok v => (.ok v, i + 1)
    | .error e => withRetryGo outcome (i + 1) remaining (some e)

/-- Model of `OllamaClient.withRetry(fn, attempts = 3)`. -/
def withRetry (outcome : Nat → Except FetchFailure α) (attempts : Nat := 3) :
    Except (Option FetchFailure) α × Nat :=
  withRetryGo outcome 0 attempts none

/-- The request phase of `OllamaClient.chat` (lines 426-445): the fetch under
`withRetry`, then the `response.ok` check — which happens *outside* the retry
wrapper, so an HTTP-level failure (e.g. missing model) is never retried.
Returns the outcome and the number of fetch calls. -/
def chatRequest (outcome : Nat → Except FetchFailure FetchResponse) :
    Except ChatError FetchResponse × Nat :=
  match withRetry outcome with
  | (.ok resp, n) => if resp.ok then (.ok resp, n) else (.error .httpError, n)
  | (.error e, n) => (.error (.fetchFailed e), n)

/-- The body-processing loop of `chat` (lines 451-468): skip malformed lines,
yield `parsed.message.content` when it is truthy (present and non-empty),
stop at the first `done` record. -/
def chatYields : List ChatLine → List String
  | [] => []
  | ChatLine.malformed :: ls => chatYields ls
  | ChatLine.parsed c d :: ls =>
    let yielded := match c with
      | some s => if s = "" then [] else [s]
      | none => []
    if d then yielded else yielded ++ chatYields ls

/-- Model of `OllamaClient.chat` end to end: the yielded chunks (or the thrown error)
and the number of fetch calls made.  All fetch calls happen in `chatRequest`,
before the first line of the body is read. -/
def chat (outcome : Nat → Except FetchFailure FetchResponse) :
    Except ChatError (List String) × Nat :=
  match chatRequest outcome with
  | (.ok resp, n) => (.ok (chatYields resp.lines), n)
  | (.error e, n) => (.error e, n)

/-! ## The RAG retriever's `search` (retriever lines 184-238)

The implemented `search` embeds the query, queries ChromaDB, and builds one
`TemplateMatch` per returned id whose similarity `1 - distance/2` reaches the
configured threshold.  `ChromaRow` packages the per-index data the loop reads:
`distances[i]` (absent entries default to 1), the metadata fields (absent
metadata defaults to the id / empty string), and the file content read back
from disk (empty when the file is gone). -/

structure ChromaRow where
  id : String
  distance : Option ℚ
  name : Option String
  description : Option String
  content : String
deriving DecidableEq

/-- The result-building loop of `RAGRetriever.search` (lines 208-237). -/
def search (similarityThreshold : ℚ) (rows : List ChromaRow) : List TemplateMatch :=
  rows.filterMap fun r =>
    let distance := r.distance.getD 1
    let score := 1 - distance / 2
    if score < similarityThreshold then none
    else some
      { id := r.id
        name := r.name.getD r.id
        score := score
        description := r.description.getD ""
        content := r.content }

/-! ## The trace store (`TraceStore`, trace-store source) and the rating route

Rows of the two SQLite tables are modelled verbatim; nullable columns are
`Option`s.  `templates_used` holds `JSON.stringify(trace.templatesUsed)`; the
stringify/parse round trip on a list of strings is modelled as the identity,
so the column stores the list itself.  The `id` primary key of `rounds` is a
fresh `randomUUID()` the code never reads back; it is omitted.  The schema's
constraints that the code relies on: `traces.id` is the primary key,
`rounds(trace_id, round_number)` is UNIQUE, and `rounds.trace_id REFERENCES
traces(id)` with `foreign_keys = ON`. -/

structure TraceRow where
  id : String
  created_at : String
  query : String
  final_answer : String
  total_rounds : Nat
  early_stopped : Int
  quality_score : Option ℚ
  user_rating : Option ℚ
  auto_score : Option ℚ
  proposer_model : String
  skeptic_model : String
  synthesizer_model : String
  embedding_model : String
  total_duration_ms : Option Nat
  rag_duration_ms : Option Nat
  synthesis_duration_ms : Option Nat
  templates_used : Option (List String)
deriving DecidableEq

structure RoundRow where
  trace_id : String
  round_number : Nat
  proposer_response : String
  skeptic_response : String
  proposer_duration_ms : Option Nat
  skeptic_duration_ms : Option Nat
deriving DecidableEq

/-- The database state: the contents of the two tables. -/
structure StoreState where
  traces : List TraceRow
  rounds : List RoundRow
deriving DecidableEq

/-- Insert into a list sorted by `le` (used to model `ORDER BY`). -/
def insertSorted (le : α → α → Bool) (a : α) : List α → List α
  | [] => [a]
  | b :: l => if le a b then a :: b :: l else b :: insertSorted le a l

/-- Insertion sort by `le` (used to model `ORDER BY`). -/
def sortedBy (le : α → α → Bool) : List α → List α
  | [] => []
  | a :: l => insertSorted le a (sortedBy le l)

/-- Ascending `ORDER BY round_number` for round rows. -/
def byRoundAsc (a b : RoundRow) : Bool := a.round_number ≤ b.round_number

/-- Descending `ORDER BY created_at` for trace rows (SQLite's binary
collation on the timestamp text). -/
def byCreatedDesc (a b : TraceRow) : Bool := decide (b.created_at ≤ a.created_at)

/-- Model of `SELECT * FROM rounds WHERE trace_id = ? ORDER BY round_number ASC`. -/
def roundsFor (st : StoreState) (id : String) : List RoundRow :=
  sortedBy byRoundAsc (st.rounds.filter (fun r => r.trace_id == id))

/-- Model of `TraceStore.rowToTrace` (trace-store lines 338-372). -/
def rowToTrace (row : TraceRow) (roundRows : List RoundRow) : DebateTrace :=
  let rounds : List DebateRound := roundRows.map fun r =>
    { round := r.round_number
      proposerResponse := r.proposer_response
      skepticResponse := r.skeptic_response
      proposerDurationMs := r.proposer_duration_ms.getD 0
      skepticDurationMs := r.skeptic_duration_ms.getD 0 }
  { id := row.id
    createdAt := row.created_at
    query := row.query
    finalAnswer := row.final_answer
    totalRounds := row.total_rounds
    earlyStopped := row.early_stopped == 1
    qualityScore := row.quality_score
    userRating := row.user_rating
    autoScore := row.auto_score
    templatesUsed := row.templates_used.getD []
    rounds := rounds
    models :=
      { proposer := row.proposer_model
        skeptic := row.skeptic_model
        synthesizer := row.synthesizer_model
        embedding := row.embedding_model }
    timing :=
      { totalMs := row.total_duration_ms.getD 0
        ragMs := row.rag_duration_ms.getD 0
        roundsMs := rounds.map (fun r => r.proposerDurationMs + r.skepticDurationMs)
        synthesisMs := row.synthesis_duration_ms.getD 0 } }

/-- The `traces` row written by `saveTrace` (the INSERT omits `created_at`,
which SQLite fills with `CURRENT_TIMESTAMP`, supplied here as `now`). -/
def traceToRow (id now : String) (t : DebateTrace) : TraceRow :=
  { id := id
    created_at := now
    query := t.query
    final_answer := t.finalAnswer
    total_rounds := t.totalRounds
    early_stopped := if t.earlyStopped then 1 else 0
    quality_score := t.qualityScore
    user_rating := t.userRating
    auto_score := t.autoScore
    proposer_model := t.models.proposer
    skeptic_model := t.models.skeptic
    synthesizer_model := t.models.synthesizer
    embedding_model := t.models.embedding
    total_duration_ms := some t.timing.totalMs
    rag_duration_ms := some t.timing.ragMs
    synthesis_duration_ms := some t.timing.synthesisMs
    templates_used := some t.templatesUsed }

/-- The `rounds` row written by `saveTrace` for one `DebateRound`. -/
def roundToRow (traceId : String) (r : DebateRound) : RoundRow :=
  { trace_id := traceId
    round_number := r.round
    proposer_response := r.proposerResponse
    skeptic_response := r.skepticResponse
    proposer_duration_ms := some r.proposerDurationMs
    skeptic_duration_ms := some r.skepticDurationMs }

/-- A constraint violation aborts the transaction. -/
inductive SqlError where
  | uniqueViolation : SqlError
deriving DecidableEq

/-- Model of `TraceStore.saveTrace` (lines 105-170): `id = trace.id || randomUUID()`,
then one transaction inserting the trace row and one row per round.  The
transaction commits only if the `traces.id` primary key and the
`rounds(trace_id, round_number)` UNIQUE constraint are respected; otherwise
nothing is written.  `uuid` stands for the `randomUUID()` result and `now`
for SQLite's `CURRENT_TIMESTAMP`. -/
def saveTrace (st : StoreState) (t : DebateTrace) (uuid now : String) :
    Except SqlError (StoreState × String) :=
  let id := if t.id = "" then uuid else t.id
  let newRows := t.rounds.map (roundToRow id)
  if st.traces.any (fun row => row.id == id) then .error .uniqueViolation
  else if ((st.rounds ++ newRows).map (fun r => (r.trace_id, r.round_number))).Nodup then
    .ok ({ traces := st.traces ++ [traceToRow id now t]
           rounds := st.rounds ++ newRows }, id)
  else .error .uniqueViolation

/-- Model of `TraceStore.getTrace` (lines 175-187). -/
def getTrace (st : StoreState) (id : String) : Option DebateTrace :=
  match st.traces.find? (fun row => row.id == id) with
  | none => none
  | some row => some (rowToTrace row (roundsFor st id))

/-- The `minQuality` condition of `listTraces` and `getFineTuneTraces`:
`quality_score >= ? OR user_rating >= ?`, with SQL `NULL >= q` never true. -/
def matchesMinQuality (row : TraceRow) (q : ℚ) : Bool :=
  (match row.quality_score with
   | some v => decide (q ≤ v)
   | none => false) ||
  (match row.user_rating with
   | some v => decide (q ≤ v)
   | none => false)

/-- The `search` condition of `listTraces`: `query LIKE '%s%'` (SQLite's LIKE
is ASCII-case-insensitive; wildcard characters inside `s` are not modelled). -/
def likeContains (text s : String) : Bool :=
  containsStr (String.map Char.toLower text) (String.map Char.toLower s)

/-- The options record of `TraceStore.listTraces`. -/
structure ListOptions where
  limit : Option Nat
  offset : Option Nat
  minQuality : Option ℚ
  search : Option String

/-- Model of `TraceStore.listTraces` (lines 192-225): build WHERE from the options
(`options?.search` is skipped when the string is empty, as JavaScript treats
`''` as falsy), `ORDER BY created_at DESC LIMIT ? OFFSET ?`, then reload each
trace's rounds. -/
def listTraces (st : StoreState) (opts : ListOptions) : List DebateTrace :=
  let limit := opts.limit.getD 20
  let offset := opts.offset.getD 0
  let rows := st.traces.filter fun row =>
    (match opts.minQuality with
     | some q => matchesMinQuality row q
     | none => true) &&
    (match opts.search with
     | some s => if s = "" then true else likeContains row.query s
     | none => true)
  (((sortedBy byCreatedDesc rows).drop offset).take limit).map fun row =>
    rowToTrace row (roundsFor st row.id)

/-- Model of `TraceStore.rateTrace` (lines 230-234): a bare
`UPDATE traces SET user_rating = ? WHERE id = ?` — no existence check and no
range check. -/
def rateTrace (st : StoreState) (id : String) (rating : ℚ) : StoreState :=
  { st with
    traces := st.traces.map fun row =>
      if row.id == id then { row with user_rating := some rating } else row }

/-- Model of `TraceStore.getFineTuneTraces` (lines 239-252):
`WHERE quality_score >= ? OR user_rating >= ? ORDER BY created_at DESC`. -/
def getFineTuneTraces (st : StoreState) (minQuality : ℚ) : List DebateTrace :=
  (sortedBy byCreatedDesc (st.traces.filter (fun row => matchesMinQuality row minQuality))).map
    fun row => rowToTrace row (roundsFor st row.id)

/-- Outcome of `POST /api/traces/:id/rate`. -/
inductive RateResult where
  | invalid : RateResult
  | success (rating : ℚ) : RateResult
deriving DecidableEq

/-- The rating route of the Fastify server (server lines 209-221): reject a
rating outside `[1,10]` with HTTP 400 before touching the store, otherwise run
`rateTrace` and report success — whether or not the id exists. -/
def ratePost (st : StoreState) (id : String) (rating : ℚ) : RateResult × StoreState :=
  if rating < 1 || 10 < rating then (.invalid, st)
  else (.success rating, rateTrace st id rating)

/-! ## Observations on event sequences

Extraction functions used to state the delta-concatenation property: the
contents of the chunk events of one role in one round, in stream order, and
the contents of the corresponding completed events. -/

def proposerChunkTexts (evs : List DebateEvent) (r : Nat) : List String :=
  evs.filterMap fun e =>
    match e with
    | DebateEvent.proposer_chunk r' c => if r' = r then some c else none
    | _ => none

def proposerCompleteTexts (evs : List DebateEvent) (r : Nat) : List String :=
  evs.filterMap fun e =>
    match e with
    | DebateEvent.proposer_complete r' c _ => if r' = r then some c else none
    | _ => none

def skepticChunkTexts (evs : List DebateEvent) (r : Nat) : List String :=
  evs.filterMap fun e =>
    match e with
    | DebateEvent.skeptic_chunk r' c => if r' = r then some c else none
    | _ => none

def skepticCompleteTexts (evs : List DebateEvent) (r : Nat) : List String :=
  evs.filterMap fun e =>
    match e with
    | DebateEvent.skeptic_complete r' c _ => if r' = r then some c else none
    | _ => none

def synthesisChunkTexts (evs : List DebateEvent) : List String :=
  evs.filterMap fun e =>
    match e with
    | DebateEvent.synthesis_chunk c => some c
    | _ => none

def synthesisCompleteTexts (evs : List DebateEvent) : List String :=
  evs.filterMap fun e =>
    match e with
    | DebateEvent.synthesis_complete c _ => some c
    | _ => none

/-- Ascending order on `DebateRound` by round number (the reference order for
the round-trip statement). -/
def byDebateRoundAsc (a b : DebateRound) : Bool := a.round ≤ b.round

/-! ## Concrete scenarios used by witnesses and counterexamples -/

/-- The max-rounds scenario of the spec (`minRounds=3, maxRounds=4`, Skeptic
always critical, never ready). -/
def cfg4 : DebateConfig :=
  { minRounds := 3
    maxRounds := 4
    ragTopK := 3
    proposerModel := "qwen3:32b"
    skepticModel := "llama3.3:70b"
    synthesizerModel := "qwen3:32b" }

/-- An environment in which the Skeptic emits the critical marker in every
round and never the readiness sentinel. -/
def env4 : DebateEnv :=
  { templates := []
    proposerChunks := fun _ => ["Proposed ", "answer."]
    skepticChunks := fun _ => ["🔴 Critical ", "issue remains."]
    synthesisChunks := ["Final ", "answer."]
    judge := Except.ok ""
    proposerDurationMs := fun _ => 5
    skepticDurationMs := fun _ => 7
    ragDurationMs := 2
    synthesisDurationMs := 3
    totalDurationMs := 100
    traceId := "trace-1"
    createdAt := "2024-01-01T00:00:00Z" }

/-- A judge reply containing a JSON score object (braces written `\x7b`/`\x7d`). -/
def sJson : String := "Verdict: \x7b\"score\": 7, \"reasoning\": \"solid\"\x7d overall."

/-- Fetch outcomes for the retry counterexample: a timeout-abort, then a
network error, then success. -/
def retryOutcome : Nat → Except FetchFailure FetchResponse := fun i =>
  if i = 0 then Except.error FetchFailure.aborted
  else if i = 1 then Except.error FetchFailure.networkError
  else Except.ok { ok := true, lines := [] }

/-- A fetch that resolves immediately. -/
def okOutcome : Nat → Except FetchFailure FetchResponse :=
  fun _ => Except.ok { ok := true, lines := [] }

/-- A ChromaDB result row whose cosine distance 1 gives similarity `1/2`,
below the default threshold `0.65`. -/
def ragMissRow : ChromaRow :=
  { id := "tree-of-thoughts"
    distance := some 1
    name := some "Tree of Thoughts"
    description := some "Explore branches"
    content := "body" }

/-- A ChromaDB result row whose cosine distance 0 gives similarity 1. -/
def ragHitRow : ChromaRow :=
  { id := "chain-of-thought"
    distance := some 0
    name := some "Chain of Thought"
    description := some "Step by step"
    content := "cot body" }

/-- A stored trace row with no ratings and no scores except metadata. -/
def rowT1 : TraceRow :=
  { id := "t1"
    created_at := "2024-01-02 03:04:05"
    query := "why?"
    final_answer := "because"
    total_rounds := 1
    early_stopped := 1
    quality_score := none
    user_rating := none
    auto_score := none
    proposer_model := "qwen3:32b"
    skeptic_model := "llama3.3:70b"
    synthesizer_model := "qwen3:32b"
    embedding_model := "nomic-embed-text"
    total_duration_ms := some 10
    rag_duration_ms := some 1
    synthesis_duration_ms := some 2
    templates_used := some ["chain-of-thought"] }

/-- A store holding exactly `rowT1` and no rounds. -/
def stC5 : StoreState := { traces := [rowT1], rounds := [] }

/-- A trace row whose only quality signal is `auto_score = 9`. -/
def rowC6 : TraceRow :=
  { rowT1 with id := "t9", auto_score := some 9 }

/-- A store holding exactly `rowC6`. -/
def stC6 : StoreState := { traces := [rowC6], rounds := [] }

/-- A trace row whose `user_rating` is 9. -/
def rowW : TraceRow :=
  { rowT1 with id := "tw", user_rating := some 9 }

/-- A store holding exactly `rowW`. -/
def stW : StoreState := { traces := [rowW], rounds := [] }

/-- A trace with two rounds recorded out of order (round 2 before round 1),
used to exercise the ORDER BY of the round-trip. -/
def traceW : DebateTrace :=
  { id := "trace-w"
    createdAt := "2024-02-02T00:00:00Z"
    query := "which?"
    templatesUsed := ["tree-of-thoughts"]
    rounds :=
      [ { round := 2
          proposerResponse := "p2"
          skepticResponse := "s2"
          proposerDurationMs := 3
          skepticDurationMs := 4 }
      , { round := 1
          proposerResponse := "p1"
          skepticResponse := "s1"
          proposerDurationMs := 1
          skepticDurationMs := 2 } ]
    finalAnswer := "final"
    totalRounds := 2
    earlyStopped := true
    qualityScore := none
    userRating := none
    autoScore := some 8
    models :=
      { proposer := "qwen3:32b"
        skeptic := "llama3.3:70b"
        synthesizer := "qwen3:32b"
        embedding := "nomic-embed-text" }
    timing := { totalMs := 50, ragMs := 5, roundsMs := [7, 3], synthesisMs := 6 } }

/-! ## Theorems -/

/-- C2: the termination predicate after round `R` with Skeptic text `S` is
true whenever (i) `S` contains the readiness sentinel (at any round), or (ii)
`R ≥ minRounds` and `S` lacks the critical marker; and when `R < minRounds`,
`R < maxRounds`, `S` lacks the sentinel and contains the critical marker, it
is false, so the debate continues.  Whenever the predicate is true at the
round being executed, the loop exits with `earlyStopped = true`. -/
theorem claim_C2_termination_predicate (cfg : DebateConfig) (S : String) (R : Nat) :
    (containsStr S readySentinel = true → shouldTerminate cfg S R = true) ∧
    (cfg.minRounds ≤ R → containsStr S criticalMarker = false →
      shouldTerminate cfg S R = true) ∧
    (R < cfg.minRounds → R < cfg.maxRounds → containsStr S readySentinel = false →
      containsStr S criticalMarker = true → shouldTerminate cfg S R = false) ∧
    (∀ (env : DebateEnv) (fuel : Nat), 0 < fuel → R ≤ cfg.maxRounds →
      shouldTerminate cfg (String.join (env.skepticChunks R)) R = true →
      (runRoundsFrom cfg env R fuel).2.2 = true) := by
  refine ⟨?_, ?_, ?_, ?_⟩
  · intro h
    simp [shouldTerminate, h]
  · intro h1 h2
    by_cases hs : containsStr S readySentinel <;>
      simp [shouldTerminate, hs, h2, h1]
  · intro h1 h2 h3 h4
    have ha : ¬ (cfg.maxRounds ≤ R) := by omega
    have hb : ¬ (cfg.minRounds ≤ R) := by omega
    simp [shouldTerminate, h3, h4, ha, hb]
  · intro env fuel hf hR ht
    obtain ⟨f, rfl⟩ := Nat.exists_eq_succ_of_ne_zero (Nat.pos_iff_ne_zero.mp hf)
    simp [runRoundsFrom, roundRecord, Nat.not_lt.mpr hR, ht]

/-- Witness for C2 at concrete inputs: a ready critique at round 1, a
critical-free critique at round 3 with `minRounds = 3`, a critical critique at
round 1 (continue), and the loop exit at round 4 of the max-rounds scenario. -/
theorem claim_C2_termination_predicate_witness :
    shouldTerminate cfg4 "Looks right. Ready for Synthesis ✅" 1 = true ∧
    shouldTerminate cfg4 "No major problems remain." 3 = true ∧
    shouldTerminate cfg4 "🔴 Major flaw in step 2." 1 = false ∧
    (runRoundsFrom cfg4 env4 4 1).2.2 = true :=
  ⟨(claim_C2_termination_predicate cfg4 "Looks right. Ready for Synthesis ✅" 1).1
      (by decide),
   (claim_C2_termination_predicate cfg4 "No major problems remain." 3).2.1
      (by decide) (by decide),
   (claim_C2_termination_predicate cfg4 "🔴 Major flaw in step 2." 1).2.2.1
      (by decide) (by decide) (by decide) (by decide),
   (claim_C2_termination_predicate cfg4 (String.join (env4.skepticChunks 4)) 4).2.2.2
      env4 1 (by decide) (by decide) (by decide)⟩

/-- C1, evaluated at the spec's own max-rounds scenario (`minRounds = 3`,
`maxRounds = 4`, Skeptic critical every round, never ready): the code reaches
round 4, `shouldTerminate` returns true because `roundNum >= maxRounds`, and
the orchestrator therefore records `earlyStopped = true` and emits
`early_stop(4)` — where the claim (and the repository's own plan) require
`earlyStopped = false` and no `early_stop` event. -/
theorem claim_C1_code_eval :
    (run cfg4 env4 "What is 2+2?").2.totalRounds = 4 ∧
    (run cfg4 env4 "What is 2+2?").2.earlyStopped = true ∧
    DebateEvent.early_stop 4 ∈ (run cfg4 env4 "What is 2+2?").1 ∧
    containsStr (String.join (env4.skepticChunks 4)) readySentinel = false := by
  decide

/-- Counterexample to C3 as stated: with a first fetch rejected by the
timeout abort and a second rejected by a network error, the third attempt
still runs and succeeds — so two automatic retries happen (three fetch
calls), and the retry after the abort shows timeouts are retried. -/
theorem claim_C3_counterexample :
    retryOutcome 0 = Except.error FetchFailure.aborted ∧
    (chatRequest retryOutcome).1 = Except.ok { ok := true, lines := [] } ∧
    (chatRequest retryOutcome).2 = 3 :=
  ⟨rfl, rfl, rfl⟩

/-- C4, evaluated at a total RAG miss: a single candidate at cosine distance 1
has similarity `1/2 < 13/20`, and the implemented `search` returns the empty
list — no fallback template is ever produced.  (A candidate at distance 0
passes the threshold normally.) -/
theorem claim_C4_code_eval :
    search (13/20) [ragMissRow] = [] ∧
    (1 - ((ragMissRow.distance.getD 1) / 2) < (13 : ℚ)/20) ∧
    search (13/20) [ragHitRow] =
      [{ id := "chain-of-thought"
         name := "Chain of Thought"
         score := 1
         description := "Step by step"
         content := "cot body" }] := by
  refine ⟨?_, ?_, ?_⟩
  · norm_num [search, ragMissRow, List.filterMap_cons, List.filterMap_nil]
  · norm_num [ragMissRow]
  · norm_num [search, ragHitRow, List.filterMap_cons, List.filterMap_nil]

/-- C5, evaluated at the failing input: rating an id that is not in the store
succeeds (`success`, store unchanged) instead of failing with `NotFound`; the
range check does reject 0, and a valid rating of a stored id round-trips. -/
theorem claim_C5_code_eval :
    (ratePost { traces := [], rounds := [] } "missing" 5).1 = RateResult.success 5 ∧
    (ratePost { traces := [], rounds := [] } "missing" 5).2 =
      { traces := [], rounds := [] } ∧
    (ratePost stC5 "t1" 0).1 = RateResult.invalid ∧
    (ratePost stC5 "t1" 0).2 = stC5 ∧
    Option.map (fun t => t.userRating) (getTrace (ratePost stC5 "t1" 9).2 "t1") =
      some (some 9) := by
  decide

/-- Counterexample to C6 as stated: a stored trace whose `auto_score` is 9 is
*not* returned by `getFineTuneTraces 8`, because the SQL filters on
`quality_score` (which is null), not `auto_score`. -/
theorem claim_C6_counterexample :
    getFineTuneTraces stC6 8 = [] ∧
    Option.map (fun t => t.autoScore) (getTrace stC6 "t9") = some (some 9) ∧
    ((8 : ℚ) ≤ 9) := by
  decide

/-- The retry loop makes at most `i + fuel` calls when started at call `i`. -/
theorem withRetryGo_calls_le (outcome : Nat → Except FetchFailure α) :
    ∀ (fuel i : Nat) (last : Option FetchFailure),
      (withRetryGo outcome i fuel last).2 ≤ i + fuel := by
  intro fuel
  induction fuel with
  | zero => intro i last; simp [withRetryGo]
  | succ f ih =>
    intro i last
    simp only [withRetryGo]
    cases h : outcome i with
    | ok v => simp
    | error e =>
      have := ih (i + 1) (some e)
      simpa [Nat.add_comm, Nat.add_left_comm] using Nat.le_trans this (by omega)

/-- If the current attempt resolves, the loop stops after this one call. -/
theorem withRetryGo_first_ok (outcome : Nat → Except FetchFailure α)
    (i fuel : Nat) (last : Option FetchFailure) (hf : 0 < fuel)
    (r : α) (hr : outcome i = Except.ok r) :
    (withRetryGo outcome i fuel last).2 = i + 1 := by
  obtain ⟨f, rfl⟩ := Nat.exists_eq_succ_of_ne_zero (Nat.pos_iff_ne_zero.mp hf)
  simp [withRetryGo, hr]

/-- Every call after the first is preceded by a failed call: if call `j + 1`
happened, call `j` rejected. -/
theorem withRetryGo_error_before (outcome : Nat → Except FetchFailure α) :
    ∀ (fuel i : Nat) (last : Option FetchFailure) (j : Nat), i ≤ j →
      j + 1 < (withRetryGo outcome i fuel last).2 →
      ∃ e, outcome j = Except.error e := by
  intro fuel
  induction fuel with
  | zero =>
    intro i last j hij hj
    simp [withRetryGo] at hj
    omega
  | succ f ih =>
    intro i last j hij hj
    simp only [withRetryGo] at hj
    cases h : outcome i with
    | ok v => rw [h] at hj; simp at hj; omega
    | error e =>
      rw [h] at hj
      rcases Nat.eq_or_lt_of_le hij with rfl | hlt
      · exact ⟨e, h⟩
      · exact ih (i + 1) (some e) j hlt hj

/-- Lemma: `chatRequest` makes exactly the fetch calls of `withRetry`. -/
theorem chatRequest_calls (outcome : Nat → Except FetchFailure FetchResponse) :
    (chatRequest outcome).2 = (withRetry outcome).2 := by
  unfold chatRequest
  rcases h : withRetry outcome with ⟨res, n⟩
  cases res with
  | ok resp => by_cases hok : resp.ok <;> simp [hok]
  | error e => simp

/-- Lemma: `chat` makes exactly the fetch calls of `chatRequest`: the streamed body
is processed after the retried fetch has returned, so the number of fetch
calls never depends on the deltas. -/
theorem chat_calls (outcome : Nat → Except FetchFailure FetchResponse) :
    (chat outcome).2 = (chatRequest outcome).2 := by
  unfold chat
  rcases h : chatRequest outcome with ⟨res, n⟩
  cases res <;> simp

/-- C3 amended: `chat` performs at most two automatic retries (three fetch
calls), a resolved first fetch — including a non-ok HTTP response such as a
missing model — is never retried, every retried call follows a rejected fetch
(of any kind, aborts from the timeout included), and the retry count is
independent of the streamed body, so no retry happens after a delta. -/
theorem claim_C3_retry_behavior (outcome : Nat → Except FetchFailure FetchResponse) :
    (chatRequest outcome).2 ≤ 3 ∧
    ((∃ r, outcome 0 = Except.ok r) → (chatRequest outcome).2 = 1) ∧
    (∀ i, i + 1 < (chatRequest outcome).2 → ∃ e, outcome i = Except.error e) ∧
    (chat outcome).2 = (chatRequest outcome).2 := by
  refine ⟨?_, ?_, ?_, chat_calls outcome⟩
  · rw [chatRequest_calls]
    simpa using withRetryGo_calls_le outcome 3 0 none
  · rintro ⟨r, hr⟩
    rw [chatRequest_calls]
    exact withRetryGo_first_ok outcome 0 3 none (by omega) r hr
  · intro i hi
    rw [chatRequest_calls] at hi
    exact withRetryGo_error_before outcome 3 0 none i (Nat.zero_le i) hi

/-- Witness for C3 amended: an immediately-resolved fetch is called exactly
once, and in the two-failure scenario the second call indeed followed a
rejection. -/
theorem claim_C3_retry_behavior_witness :
    (chatRequest okOutcome).2 = 1 ∧ (∃ e, retryOutcome 1 = Except.error e) :=
  ⟨(claim_C3_retry_behavior okOutcome).2.1 ⟨{ ok := true, lines := [] }, rfl⟩,
   (claim_C3_retry_behavior retryOutcome).2.2.1 1 (by decide)⟩

/-- The assembled trace records the auto-score outcome. -/
theorem run_autoScore (cfg : DebateConfig) (env : DebateEnv) (q : String) :
    (run cfg env q).2.autoScore = some (autoScore env.judge) := rfl

/-- The event stream ends with `complete` carrying the assembled trace. -/
theorem run_events_getLast (cfg : DebateConfig) (env : DebateEnv) (q : String) :
    (run cfg env q).1.getLast? = some (DebateEvent.complete (run cfg env q).2) := by
  have h : (run cfg env q).1 =
      (DebateEvent.rag_start :: DebateEvent.rag_complete env.templates ::
        ((runRoundsFrom cfg env 1 cfg.maxRounds).1 ++
          (DebateEvent.synthesis_start ::
            (env.synthesisChunks.map DebateEvent.synthesis_chunk ++
              [DebateEvent.synthesis_complete (String.join env.synthesisChunks)
                env.synthesisDurationMs])))) ++
      [DebateEvent.complete (run cfg env q).2] := by
    simp [run]
  rw [h, List.getLast?_concat]

/-- C7: `autoScore` is total with values in `[1,10]`: a captured score is
clamped to `[1,10]`; with no regex match the keyword heuristic yields
8, 7, 6 or 5; a thrown judging call yields the neutral 5.  The assembled
trace always records the result and the stream still terminates with the
`complete` event. -/
theorem claim_C7_autoscore (o : Except Unit String) :
    (1 ≤ autoScore o ∧ autoScore o ≤ 10) ∧
    (o = Except.error () → autoScore o = 5) ∧
    (∀ s n, o = Except.ok s → scoreCapture s.data = some n →
      autoScore o = min 10 (max 1 n)) ∧
    (∀ s, o = Except.ok s → scoreCapture s.data = none →
      (autoScore o = 8 ∨ autoScore o = 7 ∨ autoScore o = 6 ∨ autoScore o = 5)) ∧
    (∀ (cfg : DebateConfig) (env : DebateEnv) (q : String),
      (run cfg env q).2.autoScore = some (autoScore env.judge) ∧
      (run cfg env q).1.getLast? = some (DebateEvent.complete (run cfg env q).2)) := by
  refine ⟨?_, ?_, ?_, ?_, fun cfg env q => ⟨run_autoScore cfg env q, run_events_getLast cfg env q⟩⟩
  · rcases o with u | s
    · simp [autoScore]
    · rcases hc : scoreCapture s.data with _ | n
      · simp only [autoScore, hc]
        split
        · omega
        · split
          · omega
          · split <;> omega
      · simp only [autoScore, hc]
        exact ⟨Nat.le_min.mpr ⟨by omega, Nat.le_max_left 1 n⟩, Nat.min_le_left _ _⟩
  · rintro rfl; rfl
  · rintro s n rfl hc
    simp [autoScore, hc]
  · rintro s rfl hc
    simp only [autoScore, hc]
    split
    · simp
    · split
      · simp
      · split <;> simp

/-- Witness for C7 at concrete judge outcomes: a JSON reply with score 7, a
thrown call, and a reply with no digits at all. -/
theorem claim_C7_autoscore_witness :
    autoScore (Except.ok sJson) = min 10 (max 1 7) ∧
    autoScore (Except.error ()) = 5 ∧
    (autoScore (Except.ok "fine work") = 8 ∨ autoScore (Except.ok "fine work") = 7 ∨
      autoScore (Except.ok "fine work") = 6 ∨ autoScore (Except.ok "fine work") = 5) :=
  ⟨(claim_C7_autoscore (Except.ok sJson)).2.2.1 sJson 7 rfl (by decide),
   (claim_C7_autoscore (Except.error ())).2.1 rfl,
   (claim_C7_autoscore (Except.ok "fine work")).2.2.2.1 "fine work" rfl (by decide)⟩

/-! ### Stream structure of the round loop -/

/-- A constant-`none` filterMap is empty. -/
theorem filterMap_const_none (l : List α) :
    List.filterMap (fun _ => (none : Option β)) l = [] := by
  induction l with
  | nil => rfl
  | cons a l ih => simp [ih]

/-- The extraction functions distribute over appending event lists. -/
theorem proposerChunkTexts_append (l₁ l₂ : List DebateEvent) (r : Nat) :
    proposerChunkTexts (l₁ ++ l₂) r =
      proposerChunkTexts l₁ r ++ proposerChunkTexts l₂ r := by
  simp [proposerChunkTexts]

theorem proposerCompleteTexts_append (l₁ l₂ : List DebateEvent) (r : Nat) :
    proposerCompleteTexts (l₁ ++ l₂) r =
      proposerCompleteTexts l₁ r ++ proposerCompleteTexts l₂ r := by
  simp [proposerCompleteTexts]

theorem skepticChunkTexts_append (l₁ l₂ : List DebateEvent) (r : Nat) :
    skepticChunkTexts (l₁ ++ l₂) r =
      skepticChunkTexts l₁ r ++ skepticChunkTexts l₂ r := by
  simp [skepticChunkTexts]

theorem skepticCompleteTexts_append (l₁ l₂ : List DebateEvent) (r : Nat) :
    skepticCompleteTexts (l₁ ++ l₂) r =
      skepticCompleteTexts l₁ r ++ skepticCompleteTexts l₂ r := by
  simp [skepticCompleteTexts]

theorem synthesisChunkTexts_append (l₁ l₂ : List DebateEvent) :
    synthesisChunkTexts (l₁ ++ l₂) =
      synthesisChunkTexts l₁ ++ synthesisChunkTexts l₂ := by
  simp [synthesisChunkTexts]

theorem synthesisCompleteTexts_append (l₁ l₂ : List DebateEvent) :
    synthesisCompleteTexts (l₁ ++ l₂) =
      synthesisCompleteTexts l₁ ++ synthesisCompleteTexts l₂ := by
  simp [synthesisCompleteTexts]

/-- An `early_stop` event contributes nothing to any extraction. -/
theorem proposerChunkTexts_early (q r : Nat) :
    proposerChunkTexts [DebateEvent.early_stop q] r = [] := rfl

theorem proposerCompleteTexts_early (q r : Nat) :
    proposerCompleteTexts [DebateEvent.early_stop q] r = [] := rfl

theorem skepticChunkTexts_early (q r : Nat) :
    skepticChunkTexts [DebateEvent.early_stop q] r = [] := rfl

theorem skepticCompleteTexts_early (q r : Nat) :
    skepticCompleteTexts [DebateEvent.early_stop q] r = [] := rfl

theorem synthesisChunkTexts_early (q : Nat) :
    synthesisChunkTexts [DebateEvent.early_stop q] = [] := rfl

theorem synthesisCompleteTexts_early (q : Nat) :
    synthesisCompleteTexts [DebateEvent.early_stop q] = [] := rfl

/-- Proposer chunk texts contributed by one round block. -/
theorem proposerChunkTexts_roundBlock (env : DebateEnv) (q r : Nat) :
    proposerChunkTexts (roundBlock env q) r =
      if q = r then env.proposerChunks q else [] := by
  by_cases h : q = r <;>
    simp [proposerChunkTexts, roundBlock, List.filterMap_map, Function.comp_def, h,
      List.filterMap_some, filterMap_const_none]

/-- Proposer completed texts contributed by one round block. -/
theorem proposerCompleteTexts_roundBlock (env : DebateEnv) (q r : Nat) :
    proposerCompleteTexts (roundBlock env q) r =
      if q = r then [String.join (env.proposerChunks q)] else [] := by
  by_cases h : q = r <;>
    simp [proposerCompleteTexts, roundBlock, List.filterMap_map, Function.comp_def, h,
      filterMap_const_none]

/-- Skeptic chunk texts contributed by one round block. -/
theorem skepticChunkTexts_roundBlock (env : DebateEnv) (q r : Nat) :
    skepticChunkTexts (roundBlock env q) r =
      if q = r then env.skepticChunks q else [] := by
  by_cases h : q = r <;>
    simp [skepticChunkTexts, roundBlock, List.filterMap_map, Function.comp_def, h,
      List.filterMap_some, filterMap_const_none]

/-- Skeptic completed texts contributed by one round block. -/
theorem skepticCompleteTexts_roundBlock (env : DebateEnv) (q r : Nat) :
    skepticCompleteTexts (roundBlock env q) r =
      if q = r then [String.join (env.skepticChunks q)] else [] := by
  by_cases h : q = r <;>
    simp [skepticCompleteTexts, roundBlock, List.filterMap_map, Function.comp_def, h,
      filterMap_const_none]

/-- A round block yields no synthesis events. -/
theorem synthesisTexts_roundBlock (env : DebateEnv) (q : Nat) :
    synthesisChunkTexts (roundBlock env q) = [] ∧
    synthesisCompleteTexts (roundBlock env q) = [] := by
  constructor <;>
    simp [synthesisChunkTexts, synthesisCompleteTexts, roundBlock, List.filterMap_map,
      Function.comp_def, filterMap_const_none]

/-- The loop starting at `round` yields no proposer/skeptic events for any
earlier round `r < round`. -/
theorem loop_texts_of_lt (cfg : DebateConfig) (env : DebateEnv) :
    ∀ (fuel round r : Nat), r < round →
      proposerChunkTexts (runRoundsFrom cfg env round fuel).1 r = [] ∧
      proposerCompleteTexts (runRoundsFrom cfg env round fuel).1 r = [] ∧
      skepticChunkTexts (runRoundsFrom cfg env round fuel).1 r = [] ∧
      skepticCompleteTexts (runRoundsFrom cfg env round fuel).1 r = [] := by
  intro fuel
  induction fuel with
  | zero =>
    intro round r h
    simp [runRoundsFrom, proposerChunkTexts, proposerCompleteTexts, skepticChunkTexts,
      skepticCompleteTexts]
  | succ f ih =>
    intro round r h
    have hqr : ¬ (round = r) := by omega
    by_cases hg : cfg.maxRounds < round
    · simp [runRoundsFrom, hg, proposerChunkTexts, proposerCompleteTexts,
        skepticChunkTexts, skepticCompleteTexts]
    · by_cases ht : shouldTerminate cfg (roundRecord env round).skepticResponse round
      · simp [runRoundsFrom, hg, ht, proposerChunkTexts_append,
          proposerCompleteTexts_append, skepticChunkTexts_append,
          skepticCompleteTexts_append, proposerChunkTexts_roundBlock,
          proposerCompleteTexts_roundBlock, skepticChunkTexts_roundBlock,
          skepticCompleteTexts_roundBlock, proposerChunkTexts_early,
          proposerCompleteTexts_early, skepticChunkTexts_early,
          skepticCompleteTexts_early, hqr]
      · have hrest := ih (round + 1) r (by omega)
        simp [runRoundsFrom, hg, ht, proposerChunkTexts_append,
          proposerCompleteTexts_append, skepticChunkTexts_append,
          skepticCompleteTexts_append, proposerChunkTexts_roundBlock,
          proposerCompleteTexts_roundBlock, skepticChunkTexts_roundBlock,
          skepticCompleteTexts_roundBlock, hqr, hrest.1, hrest.2.1, hrest.2.2.1,
          hrest.2.2.2]

/-- Rounds recorded by the loop carry round numbers at or above the start. -/
theorem mem_runRoundsFrom_round_ge (cfg : DebateConfig) (env : DebateEnv) :
    ∀ (fuel round : Nat) (rd : DebateRound),
      rd ∈ (runRoundsFrom cfg env round fuel).2.1 → round ≤ rd.round := by
  intro fuel
  induction fuel with
  | zero => intro round rd h; simp [runRoundsFrom] at h
  | succ f ih =>
    intro round rd h
    by_cases hg : cfg.maxRounds < round
    · simp [runRoundsFrom, hg] at h
    · by_cases ht : shouldTerminate cfg (roundRecord env round).skepticResponse round
      · simp [runRoundsFrom, hg, ht] at h
        simp [h, roundRecord]
      · simp [runRoundsFrom, hg, ht] at h
        rcases h with rfl | h
        · simp [roundRecord]
        · have := ih (round + 1) rd h
          omega

/-- The loop yields no synthesis events. -/
theorem synthesisTexts_loop (cfg : DebateConfig) (env : DebateEnv) :
    ∀ (fuel round : Nat),
      synthesisChunkTexts (runRoundsFrom cfg env round fuel).1 = [] ∧
      synthesisCompleteTexts (runRoundsFrom cfg env round fuel).1 = [] := by
  intro fuel
  induction fuel with
  | zero =>
    intro round
    simp [runRoundsFrom, synthesisChunkTexts, synthesisCompleteTexts]
  | succ f ih =>
    intro round
    by_cases hg : cfg.maxRounds < round
    · simp [runRoundsFrom, hg, synthesisChunkTexts, synthesisCompleteTexts]
    · by_cases ht : shouldTerminate cfg (roundRecord env round).skepticResponse round
      · refine ⟨?_, ?_⟩ <;>
          simp [runRoundsFrom, hg, ht, synthesisChunkTexts_append,
            synthesisCompleteTexts_append, (synthesisTexts_roundBlock env round).1,
            (synthesisTexts_roundBlock env round).2, synthesisChunkTexts_early,
            synthesisCompleteTexts_early]
      · refine ⟨?_, ?_⟩ <;>
          simp [runRoundsFrom, hg, ht, synthesisChunkTexts_append,
            synthesisCompleteTexts_append, (synthesisTexts_roundBlock env round).1,
            (synthesisTexts_roundBlock env round).2, (ih (round + 1)).1,
            (ih (round + 1)).2]

/-- For every round the loop records, the streamed chunk texts of each role,
the completed-event text and the recorded text all agree. -/
theorem texts_of_mem_runRoundsFrom (cfg : DebateConfig) (env : DebateEnv) :
    ∀ (fuel round : Nat) (rd : DebateRound),
      rd ∈ (runRoundsFrom cfg env round fuel).2.1 →
      proposerChunkTexts (runRoundsFrom cfg env round fuel).1 rd.round =
        env.proposerChunks rd.round ∧
      proposerCompleteTexts (runRoundsFrom cfg env round fuel).1 rd.round =
        [String.join (env.proposerChunks rd.round)] ∧
      skepticChunkTexts (runRoundsFrom cfg env round fuel).1 rd.round =
        env.skepticChunks rd.round ∧
      skepticCompleteTexts (runRoundsFrom cfg env round fuel).1 rd.round =
        [String.join (env.skepticChunks rd.round)] ∧
      rd.proposerResponse = String.join (env.proposerChunks rd.round) ∧
      rd.skepticResponse = String.join (env.skepticChunks rd.round) := by
  intro fuel
  induction fuel with
  | zero => intro round rd h; simp [runRoundsFrom] at h
  | succ f ih =>
    intro round rd h
    by_cases hg : cfg.maxRounds < round
    · simp [runRoundsFrom, hg] at h
    · by_cases ht : shouldTerminate cfg (roundRecord env round).skepticResponse round
      · simp only [runRoundsFrom, if_neg hg, ht, if_true] at h ⊢
        simp at h
        subst h
        simp [proposerChunkTexts_append, proposerCompleteTexts_append,
          skepticChunkTexts_append, skepticCompleteTexts_append,
          proposerChunkTexts_roundBlock, proposerCompleteTexts_roundBlock,
          skepticChunkTexts_roundBlock, skepticCompleteTexts_roundBlock,
          proposerChunkTexts_early, proposerCompleteTexts_early,
          skepticChunkTexts_early, skepticCompleteTexts_early, roundRecord]
      · simp only [runRoundsFrom, if_neg hg, ht, Bool.false_eq_true, if_false] at h ⊢
        simp at h
        rcases h with rfl | h
        · have hrest := loop_texts_of_lt cfg env f (round + 1) round (by omega)
          simp [proposerChunkTexts_append, proposerCompleteTexts_append,
            skepticChunkTexts_append, skepticCompleteTexts_append,
            proposerChunkTexts_roundBlock, proposerCompleteTexts_roundBlock,
            skepticChunkTexts_roundBlock, skepticCompleteTexts_roundBlock,
            hrest.1, hrest.2.1, hrest.2.2.1, hrest.2.2.2, roundRecord]
        · have hge := mem_runRoundsFrom_round_ge cfg env f (round + 1) rd h
          have hne : ¬ (round = rd.round) := by omega
          have hmain := ih (round + 1) rd h
          simp [proposerChunkTexts_append, proposerCompleteTexts_append,
            skepticChunkTexts_append, skepticCompleteTexts_append,
            proposerChunkTexts_roundBlock, proposerCompleteTexts_roundBlock,
            skepticChunkTexts_roundBlock, skepticCompleteTexts_roundBlock, hne,
            hmain.1, hmain.2.1, hmain.2.2.1, hmain.2.2.2.1, hmain.2.2.2.2.1,
            hmain.2.2.2.2.2]

/-- Only the round loop contributes proposer chunk events. -/
theorem proposerChunkTexts_run (cfg : DebateConfig) (env : DebateEnv) (q : String) (r : Nat) :
    proposerChunkTexts (run cfg env q).1 r =
      proposerChunkTexts (runRoundsFrom cfg env 1 cfg.maxRounds).1 r := by
  simp [run, proposerChunkTexts, List.filterMap_map, Function.comp_def, filterMap_const_none]

theorem proposerCompleteTexts_run (cfg : DebateConfig) (env : DebateEnv) (q : String) (r : Nat) :
    proposerCompleteTexts (run cfg env q).1 r =
      proposerCompleteTexts (runRoundsFrom cfg env 1 cfg.maxRounds).1 r := by
  simp [run, proposerCompleteTexts, List.filterMap_map, Function.comp_def, filterMap_const_none]

theorem skepticChunkTexts_run (cfg : DebateConfig) (env : DebateEnv) (q : String) (r : Nat) :
    skepticChunkTexts (run cfg env q).1 r =
      skepticChunkTexts (runRoundsFrom cfg env 1 cfg.maxRounds).1 r := by
  simp [run, skepticChunkTexts, List.filterMap_map, Function.comp_def, filterMap_const_none]

theorem skepticCompleteTexts_run (cfg : DebateConfig) (env : DebateEnv) (q : String) (r : Nat) :
    skepticCompleteTexts (run cfg env q).1 r =
      skepticCompleteTexts (runRoundsFrom cfg env 1 cfg.maxRounds).1 r := by
  simp [run, skepticCompleteTexts, List.filterMap_map, Function.comp_def, filterMap_const_none]

/-- The synthesis chunk events of a run are the loop's (none) followed by the
synthesis stream. -/
theorem synthesisChunkTexts_run (cfg : DebateConfig) (env : DebateEnv) (q : String) :
    synthesisChunkTexts (run cfg env q).1 =
      synthesisChunkTexts (runRoundsFrom cfg env 1 cfg.maxRounds).1 ++
        env.synthesisChunks := by
  simp [run, synthesisChunkTexts, List.filterMap_map, Function.comp_def,
    List.filterMap_some]

theorem synthesisCompleteTexts_run (cfg : DebateConfig) (env : DebateEnv) (q : String) :
    synthesisCompleteTexts (run cfg env q).1 =
      synthesisCompleteTexts (runRoundsFrom cfg env 1 cfg.maxRounds).1 ++
        [String.join env.synthesisChunks] := by
  simp [run, synthesisCompleteTexts, List.filterMap_map, Function.comp_def,
    filterMap_const_none]

/-- C8: for each recorded round, the in-order concatenation of that round's
streamed proposer (resp. skeptic) chunk texts equals the text of the unique
corresponding completed event, which is the text recorded in the round; and
the concatenation of the synthesis chunk texts equals the text of the unique
`synthesis_complete` event, which is the trace's `finalAnswer`. -/
theorem claim_C8_delta_concatenation (cfg : DebateConfig) (env : DebateEnv) (q : String) :
    (∀ rd ∈ (run cfg env q).2.rounds,
      String.join (proposerChunkTexts (run cfg env q).1 rd.round) = rd.proposerResponse ∧
      proposerCompleteTexts (run cfg env q).1 rd.round = [rd.proposerResponse] ∧
      String.join (skepticChunkTexts (run cfg env q).1 rd.round) = rd.skepticResponse ∧
      skepticCompleteTexts (run cfg env q).1 rd.round = [rd.skepticResponse]) ∧
    String.join (synthesisChunkTexts (run cfg env q).1) = (run cfg env q).2.finalAnswer ∧
    synthesisCompleteTexts (run cfg env q).1 = [(run cfg env q).2.finalAnswer] := by
  have hloop := synthesisTexts_loop cfg env cfg.maxRounds 1
  refine ⟨?_, ?_, ?_⟩
  · intro rd hrd
    have h := texts_of_mem_runRoundsFrom cfg env cfg.maxRounds 1 rd hrd
    refine ⟨?_, ?_, ?_, ?_⟩
    · rw [proposerChunkTexts_run, h.1, ← h.2.2.2.2.1]
    · rw [proposerCompleteTexts_run, h.2.1, ← h.2.2.2.2.1]
    · rw [skepticChunkTexts_run, h.2.2.1, ← h.2.2.2.2.2]
    · rw [skepticCompleteTexts_run, h.2.2.2.1, ← h.2.2.2.2.2]
  · rw [synthesisChunkTexts_run, hloop.1]
    rfl
  · rw [synthesisCompleteTexts_run, hloop.2]
    rfl

/-- Witness for C8 at the max-rounds scenario, round 1. -/
theorem claim_C8_delta_concatenation_witness :
    String.join (proposerChunkTexts (run cfg4 env4 "tell me").1 (roundRecord env4 1).round) =
      (roundRecord env4 1).proposerResponse :=
  ((claim_C8_delta_concatenation cfg4 env4 "tell me").1 (roundRecord env4 1) (by decide)).1

/-- The round numbers recorded by the loop starting at `round` are the
contiguous range beginning at `round`. -/
theorem rounds_map_round (cfg : DebateConfig) (env : DebateEnv) :
    ∀ (fuel round : Nat),
      (runRoundsFrom cfg env round fuel).2.1.map (fun r => r.round) =
        List.range' round (runRoundsFrom cfg env round fuel).2.1.length := by
  intro fuel
  induction fuel with
  | zero => intro round; simp [runRoundsFrom]
  | succ f ih =>
    intro round
    by_cases hg : cfg.maxRounds < round
    · simp [runRoundsFrom, hg]
    · by_cases ht : shouldTerminate cfg (roundRecord env round).skepticResponse round
      · simp only [runRoundsFrom, if_neg hg, ht, if_true]
        simp [roundRecord, List.range'_succ]
      · simp only [runRoundsFrom, if_neg hg, if_neg ht]
        simp [roundRecord, List.range'_succ, ih (round + 1)]

/-- C9: in every assembled trace, `totalRounds` is the number of rounds, the
round numbers are exactly `1..totalRounds` in ascending order, and
`timing.roundsMs` lists, round by round, the sum of the proposer and skeptic
durations (hence has length `totalRounds`). -/
theorem claim_C9_trace_shape (cfg : DebateConfig) (env : DebateEnv) (q : String) :
    (run cfg env q).2.totalRounds = (run cfg env q).2.rounds.length ∧
    (run cfg env q).2.rounds.map (fun r => r.round) =
      List.range' 1 (run cfg env q).2.totalRounds ∧
    (run cfg env q).2.timing.roundsMs.length = (run cfg env q).2.totalRounds ∧
    (run cfg env q).2.timing.roundsMs =
      (run cfg env q).2.rounds.map (fun r => r.proposerDurationMs + r.skepticDurationMs) := by
  refine ⟨rfl, ?_, by simp [run], rfl⟩
  simpa [run] using rounds_map_round cfg env cfg.maxRounds 1

/-! ### Sorting lemmas for the store model -/

theorem mem_insertSorted (le : α → α → Bool) (a b : α) (l : List α) :
    a ∈ insertSorted le b l ↔ a = b ∨ a ∈ l := by
  induction l with
  | nil => simp [insertSorted]
  | cons c l ih =>
    simp only [insertSorted]
    split
    · simp
    · simp [ih]
      tauto

theorem mem_sortedBy (le : α → α → Bool) (a : α) (l : List α) :
    a ∈ sortedBy le l ↔ a ∈ l := by
  induction l with
  | nil => simp [sortedBy]
  | cons b l ih => simp [sortedBy, mem_insertSorted, ih]

theorem length_insertSorted (le : α → α → Bool) (a : α) (l : List α) :
    (insertSorted le a l).length = l.length + 1 := by
  induction l with
  | nil => rfl
  | cons b l ih =>
    simp only [insertSorted]
    split <;> simp [ih]

theorem length_sortedBy (le : α → α → Bool) (l : List α) :
    (sortedBy le l).length = l.length := by
  induction l with
  | nil => rfl
  | cons a l ih => simp [sortedBy, length_insertSorted, ih]

/-- Sorting commutes with mapping a key-preserving function. -/
theorem insertSorted_map (f : α → β) (leA : α → α → Bool) (leB : β → β → Bool)
    (hf : ∀ x y, leB (f x) (f y) = leA x y) (a : α) (l : List α) :
    insertSorted leB (f a) (l.map f) = (insertSorted leA a l).map f := by
  induction l with
  | nil => rfl
  | cons b l ih =>
    simp only [List.map_cons, insertSorted, hf]
    split <;> simp [*]

theorem sortedBy_map (f : α → β) (leA : α → α → Bool) (leB : β → β → Bool)
    (hf : ∀ x y, leB (f x) (f y) = leA x y) (l : List α) :
    sortedBy leB (l.map f) = (sortedBy leA l).map f := by
  induction l with
  | nil => rfl
  | cons a l ih => simp [sortedBy, ih, insertSorted_map f leA leB hf]

/-- C10: saving a fresh trace (non-empty id not present in a well-formed
store, pairwise-distinct round numbers) commits, and `getTrace` then returns
a trace with the same id, query, finalAnswer, totalRounds, earlyStopped and
templatesUsed, whose rounds are the saved rounds reordered by ascending round
number (here: all round fields round-trip unchanged). -/
theorem claim_C10_save_get_roundtrip (st : StoreState) (t : DebateTrace) (uuid now : String)
    (hfk : ∀ rr ∈ st.rounds, ∃ tr ∈ st.traces, rr.trace_id = tr.id)
    (hkeys : (st.rounds.map (fun r => (r.trace_id, r.round_number))).Nodup)
    (hid : t.id ≠ "")
    (hfresh : ∀ row ∈ st.traces, row.id ≠ t.id)
    (hnodup : (t.rounds.map (fun r => r.round)).Nodup) :
    ∃ st', saveTrace st t uuid now = Except.ok (st', t.id) ∧
      ∃ t', getTrace st' t.id = some t' ∧
        t'.id = t.id ∧ t'.query = t.query ∧ t'.finalAnswer = t.finalAnswer ∧
        t'.totalRounds = t.totalRounds ∧ t'.earlyStopped = t.earlyStopped ∧
        t'.templatesUsed = t.templatesUsed ∧
        t'.rounds = sortedBy byDebateRoundAsc t.rounds := by
  have hid' : (if t.id = "" then uuid else t.id) = t.id := if_neg hid
  have hany : (st.traces.any fun row => row.id == t.id) = false := by
    rw [List.any_eq_false]
    intro row hrow
    simpa using hfresh row hrow
  have hnew_keys :
      (t.rounds.map (roundToRow t.id)).map (fun r => (r.trace_id, r.round_number)) =
        (t.rounds.map (fun r => r.round)).map (fun n => (t.id, n)) := by
    simp [roundToRow, List.map_map, Function.comp_def]
  have hnodup_all :
      ((st.rounds ++ t.rounds.map (roundToRow t.id)).map
        (fun r => (r.trace_id, r.round_number))).Nodup := by
    rw [List.map_append, List.nodup_append]
    refine ⟨hkeys, ?_, ?_⟩
    · rw [hnew_keys]
      exact hnodup.map (fun a b h => by simpa using h)
    · intro key hk1 hk2
      obtain ⟨rr, hrr, rfl⟩ := List.mem_map.mp hk1
      rw [hnew_keys] at hk2
      obtain ⟨n, _, hkey⟩ := List.mem_map.mp hk2
      obtain ⟨tr, htr, heq⟩ := hfk rr hrr
      have : rr.trace_id = t.id := by
        have := congrArg Prod.fst hkey
        simpa using this.symm
      exact hfresh tr htr (by rw [← heq, this])
  have hsave : saveTrace st t uuid now =
      Except.ok ({ traces := st.traces ++ [traceToRow t.id now t]
                   rounds := st.rounds ++ t.rounds.map (roundToRow t.id) }, t.id) := by
    simp only [saveTrace, hid']
    rw [if_neg (by simp [hany]), if_pos hnodup_all]
  have hfind :
      (st.traces ++ [traceToRow t.id now t]).find? (fun row => row.id == t.id) =
        some (traceToRow t.id now t) := by
    rw [List.find?_append]
    have h1 : st.traces.find? (fun row => row.id == t.id) = none := by
      rw [List.find?_eq_none]
      intro row hrow
      simpa using hfresh row hrow
    rw [h1]
    simp [List.find?, traceToRow]
  have hfilter :
      ((st.rounds ++ t.rounds.map (roundToRow t.id)).filter
        (fun r => r.trace_id == t.id)) = t.rounds.map (roundToRow t.id) := by
    rw [List.filter_append]
    have h1 : st.rounds.filter (fun r => r.trace_id == t.id) = [] := by
      rw [List.filter_eq_nil_iff]
      intro rr hrr
      obtain ⟨tr, htr, heq⟩ := hfk rr hrr
      simp [heq]
      exact hfresh tr htr
    have h2 : (t.rounds.map (roundToRow t.id)).filter
        (fun r => r.trace_id == t.id) = t.rounds.map (roundToRow t.id) := by
      rw [List.filter_eq_self]
      intro r hr
      obtain ⟨rd, _, rfl⟩ := List.mem_map.mp hr
      simp [roundToRow]
    rw [h1, h2, List.nil_append]
  have hsort : sortedBy byRoundAsc (t.rounds.map (roundToRow t.id)) =
      (sortedBy byDebateRoundAsc t.rounds).map (roundToRow t.id) :=
    sortedBy_map (roundToRow t.id) byDebateRoundAsc byRoundAsc (fun x y => rfl) t.rounds
  have hback : ((sortedBy byDebateRoundAsc t.rounds).map (roundToRow t.id)).map
      (fun r => ({ round := r.round_number
                   proposerResponse := r.proposer_response
                   skepticResponse := r.skeptic_response
                   proposerDurationMs := r.proposer_duration_ms.getD 0
                   skepticDurationMs := r.skeptic_duration_ms.getD 0 } : DebateRound)) =
      sortedBy byDebateRoundAsc t.rounds := by
    rw [List.map_map]
    exact List.map_id'' (fun r => rfl) _
  refine ⟨_, hsave,
    rowToTrace (traceToRow t.id now t)
      (sortedBy byRoundAsc (t.rounds.map (roundToRow t.id))),
    ?_, rfl, rfl, rfl, rfl, ?_, rfl, ?_⟩
  · simp only [getTrace, roundsFor, hfilter, hfind]
  · cases h : t.earlyStopped <;> simp [rowToTrace, traceToRow, h]
  · simp only [rowToTrace]
    rw [hsort]
    exact hback

/-- Witness for C10: an empty store, a two-round trace recorded out of order;
the reloaded rounds come back sorted ascending. -/
theorem claim_C10_save_get_roundtrip_witness :
    ∃ st', saveTrace { traces := [], rounds := [] } traceW "u" "2024-02-02 00:00:00" =
        Except.ok (st', traceW.id) ∧
      ∃ t', getTrace st' traceW.id = some t' ∧
        t'.id = traceW.id ∧ t'.query = traceW.query ∧ t'.finalAnswer = traceW.finalAnswer ∧
        t'.totalRounds = traceW.totalRounds ∧ t'.earlyStopped = traceW.earlyStopped ∧
        t'.templatesUsed = traceW.templatesUsed ∧
        t'.rounds = sortedBy byDebateRoundAsc traceW.rounds :=
  claim_C10_save_get_roundtrip { traces := [], rounds := [] } traceW "u" "2024-02-02 00:00:00"
    (by simp) (by simp) (by decide) (by simp) (by decide)

/-- C6 amended: the `minQuality` filter of `listTraces` and the filter of
`getFineTuneTraces` select exactly the stored traces with
`qualityScore ≥ q OR userRating ≥ q` — `autoScore` is not consulted, so a
trace whose only signal is `autoScore ≥ q` does not qualify. -/
theorem claim_C6_quality_filter (st : StoreState) (q : ℚ) :
    (∀ t, t ∈ getFineTuneTraces st q ↔
      ∃ row ∈ st.traces, matchesMinQuality row q = true ∧
        t = rowToTrace row (roundsFor st row.id)) ∧
    (∀ row, matchesMinQuality row q = true ↔
      ((∃ v, row.quality_score = some v ∧ q ≤ v) ∨
        (∃ v, row.user_rating = some v ∧ q ≤ v))) ∧
    (∀ (limit offset : Nat) (t : DebateTrace),
      t ∈ listTraces st { limit := some limit, offset := some offset,
                          minQuality := some q, search := none } →
      ∃ row ∈ st.traces, matchesMinQuality row q = true ∧
        t = rowToTrace row (roundsFor st row.id)) ∧
    (∀ t, t ∈ listTraces st { limit := some st.traces.length, offset := some 0,
                              minQuality := some q, search := none } ↔
      ∃ row ∈ st.traces, matchesMinQuality row q = true ∧
        t = rowToTrace row (roundsFor st row.id)) := by
  refine ⟨?_, ?_, ?_, ?_⟩
  · intro t
    simp only [getFineTuneTraces, List.mem_map, mem_sortedBy, List.mem_filter]
    constructor
    · rintro ⟨row, ⟨hrow, hq⟩, rfl⟩
      exact ⟨row, hrow, hq, rfl⟩
    · rintro ⟨row, hrow, hq, rfl⟩
      exact ⟨row, ⟨hrow, hq⟩, rfl⟩
  · intro row
    rcases hq : row.quality_score with _ | v <;>
      rcases hu : row.user_rating with _ | u <;>
        simp [matchesMinQuality, hq, hu]
  · intro limit offset t ht
    simp only [listTraces, List.mem_map] at ht
    obtain ⟨row, hrow, rfl⟩ := ht
    have h1 : row ∈ (sortedBy byCreatedDesc (st.traces.filter fun row =>
        matchesMinQuality row q && true)).drop offset :=
      List.take_subset _ _ hrow
    have h2 := List.drop_subset _ _ h1
    rw [mem_sortedBy, List.mem_filter] at h2
    exact ⟨row, h2.1, by simpa using h2.2, rfl⟩
  · intro t
    have hlen : (sortedBy byCreatedDesc (st.traces.filter fun row =>
        matchesMinQuality row q && true)).length ≤ st.traces.length := by
      rw [length_sortedBy]
      exact List.length_filter_le _ _
    simp only [listTraces, Option.getD_some, List.drop_zero,
      List.take_of_length_le hlen, List.mem_map, mem_sortedBy, List.mem_filter]
    constructor
    · rintro ⟨row, ⟨hrow, hq⟩, rfl⟩
      exact ⟨row, hrow, by simpa using hq, rfl⟩
    · rintro ⟨row, hrow, hq, rfl⟩
      exact ⟨row, ⟨hrow, by simpa using hq⟩, rfl⟩

/-- Witness for C6 amended: a trace rated 9 by the user is selected at
threshold 8 by `getFineTuneTraces` and satisfies the filter. -/
theorem claim_C6_quality_filter_witness :
    rowToTrace rowW (roundsFor stW rowW.id) ∈ getFineTuneTraces stW 8 ∧
    matchesMinQuality rowW 8 = true :=
  ⟨((claim_C6_quality_filter stW 8).1 _).mpr ⟨rowW, by decide, by decide, rfl⟩,
   ((claim_C6_quality_filter stW 8).2.1 rowW).mpr (Or.inr ⟨9, rfl, by norm_num⟩)⟩

end TMDE
